import Mathlib

/-!
Shallow embedding of `src/script.js` from the Personal-Portfolio repository.

The script has two independent pieces of state:
  * the theme state (the document's `data-theme` attribute, the value
    persisted in `localStorage` under the key `theme`, and the toggle
    button's `aria-label`), manipulated by `setTheme`, the initialization
    block, and the toggle click handler;
  * the page state (the contents of the projects container and of the
    error container), manipulated by `fetchProjects`, `showLoading` and
    `displayError`.

Network effects are embedded by passing the outcome of the single `fetch`
call (transport failure, or a response with a status and a body-decode
result) as an explicit argument to the embedded `fetchProjects`.
-/

namespace Portfolio

/-- Model of the mutable theme-related state: the `data-theme` attribute on
`document.documentElement`, the `localStorage` entry under key `theme`, and
the toggle button's `aria-label`.  `none` models an absent attribute/entry. -/
structure ThemeState where
  dataThemeAttr : Option String
  storedTheme : Option String
  toggleAriaLabel : Option String
  deriving DecidableEq, Repr

/-- Embedding of `setTheme` (script.js lines 19-29): if the argument is the
exact string "dark", apply and persist "dark", otherwise apply and persist
"light"; the aria-label always names the opposite action. -/
def setTheme (theme : String) (_s : ThemeState) : ThemeState :=
  if theme = "dark" then
    { dataThemeAttr := some "dark"
      storedTheme := some "dark"
      toggleAriaLabel := some "Switch to light mode" }
  else
    { dataThemeAttr := some "light"
      storedTheme := some "light"
      toggleAriaLabel := some "Switch to dark mode" }

/-- Embedding of the initialization block (script.js lines 32-39):
`savedTheme` is the result of `localStorage.getItem('theme')` (`none` models
`null`), `prefersDark` the result of the `matchMedia` query.  JavaScript's
`if (savedTheme)` is falsy both for `null` and for the empty string. -/
def initTheme (savedTheme : Option String) (prefersDark : Bool)
    (s : ThemeState) : ThemeState :=
  match savedTheme with
  | some t =>
    if t = "" then setTheme (if prefersDark then "dark" else "light") s
    else setTheme t s
  | none => setTheme (if prefersDark then "dark" else "light") s

/-- Embedding of the theme-toggle click handler (script.js lines 41-44):
read the currently applied `data-theme` attribute, flip it, apply. -/
def toggleTheme (s : ThemeState) : ThemeState :=
  setTheme (if s.dataThemeAttr = some "dark" then "light" else "dark") s

/-- The configured GitHub username (script.js line 5). -/
def USERNAME : String := "AndyFerns"

/-- Embedding of the direction computation (script.js line 81):
`full_name` is alphabetical (asc), others are chronological (desc). -/
def direction (sortBy : String) : String :=
  if sortBy = "full_name" then "asc" else "desc"

/-- Embedding of the request URL construction (script.js line 82). -/
def API_URL (sortBy : String) : String :=
  "https://api.github.com/users/" ++ USERNAME ++ "/repos?sort=" ++ sortBy
    ++ "&direction=" ++ direction sortBy

/-- The fields of a repository record consumed by the script.  `description`
and `language` are nullable in the GitHub API; `none` models `null`. -/
structure Project where
  name : String
  description : Option String
  language : Option String
  html_url : String
  stargazers_count : Nat
  forks_count : Nat
  deriving DecidableEq, Repr

/-- One rendered project card (script.js lines 110-135): the texts
interpolated into the card's markup. -/
structure Card where
  name : String
  description : String
  language : String
  stargazers_count : Nat
  forks_count : Nat
  html_url : String
  deriving DecidableEq, Repr

/-- JavaScript's `s || fallback` for a string `s`: the fallback is taken
exactly when `s` is falsy, i.e. the empty string. -/
def jsStringOr (s fallback : String) : String :=
  if s = "" then fallback else s

/-- JavaScript's `v || fallback` where `v` is a nullable string: `null`
(here `none`) and the empty string are falsy. -/
def jsOptStringOr (v : Option String) (fallback : String) : String :=
  match v with
  | none => fallback
  | some s => jsStringOr s fallback

/-- Embedding of the per-record card construction (script.js lines 110-135),
in particular the defaults of lines 113-114. -/
def renderCard (p : Project) : Card :=
  { name := p.name
    description := jsOptStringOr p.description "No description provided."
    language := jsOptStringOr p.language "N/A"
    stargazers_count := p.stargazers_count
    forks_count := p.forks_count
    html_url := p.html_url }

/-- Model of the contents of the projects container: empty, the loading
paragraph (script.js line 54), the empty-result notice (line 102), or a
list of rendered cards. -/
inductive ContainerContent where
  | empty : ContainerContent
  | loading : ContainerContent
  | noRepos : ContainerContent
  | cards : List Card → ContainerContent
  deriving DecidableEq, Repr

/-- The cards present in the projects container. -/
def containerCards : ContainerContent → List Card
  | .cards cs => cs
  | _ => []

/-- Model of the page state touched by `fetchProjects`: the projects
container and the error container (`none` models an empty error region,
`some m` the message `m` wrapped in a paragraph by `displayError`). -/
structure PageState where
  projectsContainer : ContainerContent
  errorContainer : Option String
  deriving DecidableEq, Repr

/-- Embedding of `showLoading(true)` (script.js lines 53-54): replace the
container's content with the loading paragraph. -/
def showLoadingTrue (_c : ContainerContent) : ContainerContent :=
  ContainerContent.loading

/-- Embedding of `showLoading(false)` (script.js lines 56-59): remove the
loading element if it is present.  The boolean reports whether an element
was actually removed. -/
def showLoadingFalse (c : ContainerContent) : ContainerContent × Bool :=
  match c with
  | .loading => (ContainerContent.empty, true)
  | c => (c, false)

/-- Embedding of `displayError` (script.js lines 67-69). -/
def displayError (message : String) (s : PageState) : PageState :=
  { s with errorContainer := some message }

/-- The `response.ok` predicate of the Fetch API: status in 200..299. -/
def respOk (status : Nat) : Bool :=
  200 ≤ status && status ≤ 299

/-- Embedding of lines 88-93: the error message built for a non-ok
response, specialized for 403 and 404. -/
def httpErrorMessage (username : String) (status : Nat) : String :=
  if status = 403 then
    "GitHub API rate limit exceeded. Please try again in a few minutes."
  else if status = 404 then
    "GitHub user '" ++ username ++ "' not found."
  else
    "HTTP Error: " ++ toString status

/-- The fallback text of script.js line 141, used when the caught error's
`message` is falsy. -/
def networkFallbackMessage : String :=
  "Network error. Please check your connection."

/-- Outcome of the single `fetch` call of one `fetchProjects` run:
either the transport fails (the promise rejects with an error carrying
`msg`), or a response arrives with a `status` and a body whose JSON decode
either fails with an error message or yields a list of records. -/
inductive FetchOutcome where
  | network : String → FetchOutcome
  | response : Nat → Except String (List Project) → FetchOutcome
  deriving Repr

/-- Result of one embedded `fetchProjects` run: the request URL, the final
page state, and how many times the loading element was actually removed. -/
structure FetchRun where
  url : String
  state : PageState
  loadingRemovals : Nat
  deriving DecidableEq, Repr

/-- Embedding of `fetchProjects` (script.js lines 75-143), following the
source line by line.  `showLoading(true)` (line 76) replaces the container
content with the loading paragraph and the error container is cleared
(line 77); then the run branches on the fetch outcome.  Every `catch`-path
applies `error.message || fallback` (line 141) before displaying. -/
def fetchProjects (sortBy : String) (outcome : FetchOutcome)
    (s0 : PageState) : FetchRun :=
  let c1 := showLoadingTrue s0.projectsContainer
  let url := API_URL sortBy
  match outcome with
  | .network msg =>
    let r := showLoadingFalse c1
    { url := url
      state := { projectsContainer := r.1
                 errorContainer :=
                   some (jsStringOr msg networkFallbackMessage) }
      loadingRemovals := if r.2 then 1 else 0 }
  | .response status body =>
    if respOk status then
      match body with
      | .error msg =>
        let r := showLoadingFalse c1
        { url := url
          state := { projectsContainer := r.1
                     errorContainer :=
                       some (jsStringOr msg networkFallbackMessage) }
          loadingRemovals := if r.2 then 1 else 0 }
      | .ok projects =>
        let r := showLoadingFalse c1
        if projects.length = 0 then
          { url := url
            state := { projectsContainer := ContainerContent.noRepos
                       errorContainer := none }
            loadingRemovals := if r.2 then 1 else 0 }
        else
          { url := url
            state := { projectsContainer :=
                         ContainerContent.cards (projects.map renderCard)
                       errorContainer := none }
            loadingRemovals := if r.2 then 1 else 0 }
    else
      let msg := httpErrorMessage USERNAME status
      let r := showLoadingFalse c1
      { url := url
        state := { projectsContainer := r.1
                   errorContainer :=
                     some (jsStringOr msg networkFallbackMessage) }
        loadingRemovals := if r.2 then 1 else 0 }

/-- The invariant of the theme store: the value applied to the document
equals the persisted value. -/
def themeConsistent (s : ThemeState) : Prop :=
  s.dataThemeAttr = s.storedTheme

/-- Every `setTheme` result satisfies the applied-equals-persisted
invariant. -/
lemma setTheme_themeConsistent (t : String) (s : ThemeState) :
    themeConsistent (setTheme t s) := by
  by_cases h : t = "dark" <;> simp [setTheme, themeConsistent, h]

/-- The initialization block is a `setTheme` call on some argument. -/
lemma initTheme_eq_setTheme (saved : Option String) (pd : Bool)
    (s : ThemeState) : ∃ t, initTheme saved pd s = setTheme t s := by
  cases saved with
  | none => exact ⟨if pd then "dark" else "light", rfl⟩
  | some t =>
    by_cases h : t = ""
    · exact ⟨if pd then "dark" else "light", by simp [initTheme, h]⟩
    · exact ⟨t, by simp [initTheme, h]⟩

/-- Toggling twice is the identity on any `setTheme` result. -/
lemma toggleTheme_toggleTheme_setTheme (t : String) (s : ThemeState) :
    toggleTheme (toggleTheme (setTheme t s)) = setTheme t s := by
  by_cases h : t = "dark" <;> simp [setTheme, toggleTheme, h]

/-- The message built for a non-ok response is never the empty string. -/
lemma httpErrorMessage_ne_empty (u : String) (status : Nat) :
    httpErrorMessage u status ≠ "" := by
  unfold httpErrorMessage
  split
  · intro h; exact absurd (congrArg String.length h) (by decide)
  · split
    · intro h
      have hl := congrArg String.length h
      simp [String.length_append] at hl
      exact absurd hl.1.1 (by decide)
    · intro h
      have hl := congrArg String.length h
      simp [String.length_append] at hl
      exact absurd hl.1 (by decide)

/-- Applying the `error.message || fallback` step to a nonempty message
yields the message itself. -/
lemma jsStringOr_of_ne_empty {s : String} (h : s ≠ "") (fb : String) :
    jsStringOr s fb = s := by
  simp [jsStringOr, h]

/-- C1: for every sort key, the computed request direction used in the
fetch URL is "asc" if and only if the sort key is "full_name"; every other
key yields "desc", and the URL ends with that direction. -/
theorem direction_asc_iff_full_name (sortBy : String) :
    (direction sortBy = "asc" ↔ sortBy = "full_name") ∧
    (sortBy ≠ "full_name" → direction sortBy = "desc") ∧
    API_URL sortBy = "https://api.github.com/users/" ++ USERNAME
      ++ "/repos?sort=" ++ sortBy ++ "&direction=" ++ direction sortBy := by
  refine ⟨?_, ?_, rfl⟩
  · unfold direction
    by_cases h : sortBy = "full_name" <;> simp [h]
  · intro h; simp [direction, h]

/-- Witness for C1 at the concrete keys "updated" and "full_name". -/
theorem direction_asc_iff_full_name_witness :
    direction "updated" = "desc" ∧ direction "full_name" = "asc" :=
  ⟨(direction_asc_iff_full_name "updated").2.1 (by decide),
   (direction_asc_iff_full_name "full_name").1.2 rfl⟩

/-- C2: on every fetch attempt and outcome (success, non-2xx status,
transport failure, decode failure), the loading element is removed exactly
once, and the final projects container never shows the loading paragraph. -/
theorem loading_cleared_exactly_once (sortBy : String)
    (outcome : FetchOutcome) (s0 : PageState) :
    (fetchProjects sortBy outcome s0).loadingRemovals = 1 ∧
    (fetchProjects sortBy outcome s0).state.projectsContainer
      ≠ ContainerContent.loading := by
  cases outcome with
  | network msg => simp [fetchProjects, showLoadingTrue, showLoadingFalse]
  | response status body =>
    by_cases h : respOk status
    · cases body with
      | error msg =>
        simp [fetchProjects, h, showLoadingTrue, showLoadingFalse]
      | ok projects =>
        by_cases hl : projects.length = 0 <;>
          simp [fetchProjects, h, hl, showLoadingTrue, showLoadingFalse]
    · simp [fetchProjects, h, showLoadingTrue, showLoadingFalse]

/-- C3: after any completed theme state-changing operation (a `setTheme`
call, the initial theme application, or a toggle), the `data-theme` value
and the persisted value are equal. -/
theorem theme_applied_eq_persisted (t : String) (saved : Option String)
    (pd : Bool) (s : ThemeState) :
    themeConsistent (setTheme t s) ∧
    themeConsistent (initTheme saved pd s) ∧
    themeConsistent (toggleTheme s) := by
  refine ⟨setTheme_themeConsistent t s, ?_, setTheme_themeConsistent _ s⟩
  obtain ⟨t', ht'⟩ := initTheme_eq_setTheme saved pd s
  rw [ht']; exact setTheme_themeConsistent t' s

/-- C4: for every starting preference and platform signal, initializing the
theme and then toggling twice restores the whole theme state (applied
attribute, persisted value and label) to its post-initialization value. -/
theorem toggle_toggle_restores (saved : Option String) (pd : Bool)
    (s : ThemeState) :
    toggleTheme (toggleTheme (initTheme saved pd s)) = initTheme saved pd s := by
  obtain ⟨t, ht⟩ := initTheme_eq_setTheme saved pd s
  rw [ht]
  exact toggleTheme_toggleTheme_setTheme t s

/-- C5: for every non-ok HTTP status, the displayed error message is the
specialized rate-limit text for 403, a text containing the configured
username and "not found" for 404, and the generic "HTTP Error: {status}"
otherwise. -/
theorem http_error_message_displayed (sortBy : String) (s0 : PageState)
    (status : Nat) (body : Except String (List Project))
    (h : respOk status = false) :
    (fetchProjects sortBy (.response status body) s0).state.errorContainer
      = some (httpErrorMessage USERNAME status) ∧
    (status = 403 → httpErrorMessage USERNAME status
      = "GitHub API rate limit exceeded. Please try again in a few minutes.") ∧
    (status = 404 → httpErrorMessage USERNAME status
      = "GitHub user '" ++ USERNAME ++ "' not found.") ∧
    (status ≠ 403 → status ≠ 404 → httpErrorMessage USERNAME status
      = "HTTP Error: " ++ toString status) := by
  refine ⟨?_, ?_, ?_, ?_⟩
  · simp [fetchProjects, h, showLoadingTrue, showLoadingFalse,
      jsStringOr_of_ne_empty (httpErrorMessage_ne_empty USERNAME status)]
  · intro h403; simp [httpErrorMessage, h403]
  · intro h404; simp [httpErrorMessage, h404]
  · intro h403 h404; simp [httpErrorMessage, h403, h404]

/-- Witness for C5 at status 500 with a generic message, applied from an
arbitrary concrete page state. -/
theorem http_error_message_displayed_witness :
    (fetchProjects "updated" (.response 500 (.ok []))
        ⟨ContainerContent.empty, none⟩).state.errorContainer
      = some (httpErrorMessage USERNAME 500) ∧
    (500 = 403 → httpErrorMessage USERNAME 500
      = "GitHub API rate limit exceeded. Please try again in a few minutes.") ∧
    (500 = 404 → httpErrorMessage USERNAME 500
      = "GitHub user '" ++ USERNAME ++ "' not found.") ∧
    (500 ≠ 403 → 500 ≠ 404 → httpErrorMessage USERNAME 500
      = "HTTP Error: " ++ toString 500) :=
  http_error_message_displayed "updated" ⟨ContainerContent.empty, none⟩
    500 (.ok []) (by decide)

/-- C6: a record with null/absent description renders exactly the default
description text, and a record with null/absent language renders exactly
"N/A" in the language badge. -/
theorem default_description_and_language (p : Project) :
    (p.description = none →
      (renderCard p).description = "No description provided.") ∧
    (p.language = none → (renderCard p).language = "N/A") := by
  constructor <;> intro h <;> simp [renderCard, jsOptStringOr, h]

/-- Witness for C6 on a concrete record with null description and
language. -/
theorem default_description_and_language_witness :
    (renderCard ⟨"repo1", none, none, "https://x/repo1", 0, 0⟩).description
      = "No description provided." ∧
    (renderCard ⟨"repo1", none, none, "https://x/repo1", 0, 0⟩).language
      = "N/A" :=
  ⟨(default_description_and_language
      ⟨"repo1", none, none, "https://x/repo1", 0, 0⟩).1 rfl,
   (default_description_and_language
      ⟨"repo1", none, none, "https://x/repo1", 0, 0⟩).2 rfl⟩

/-- C7: a successful response whose decoded array is empty leaves the
projects container holding exactly the no-repositories notice and no card
elements. -/
theorem empty_projects_notice (sortBy : String) (s0 : PageState)
    (status : Nat) (h : respOk status = true) :
    (fetchProjects sortBy (.response status (.ok [])) s0).state.projectsContainer
      = ContainerContent.noRepos ∧
    containerCards
      (fetchProjects sortBy (.response status (.ok []))
        s0).state.projectsContainer = [] := by
  simp [fetchProjects, h, showLoadingTrue, showLoadingFalse, containerCards]

/-- Witness for C7 at status 200 from a concrete page state. -/
theorem empty_projects_notice_witness :
    (fetchProjects "updated" (.response 200 (.ok []))
        ⟨ContainerContent.empty, none⟩).state.projectsContainer
      = ContainerContent.noRepos ∧
    containerCards
      (fetchProjects "updated" (.response 200 (.ok []))
        ⟨ContainerContent.empty, none⟩).state.projectsContainer = [] :=
  empty_projects_notice "updated" ⟨ContainerContent.empty, none⟩ 200 (by decide)

/-- C8: initialization uses the persisted preference when one is stored,
otherwise the platform signal ("dark" when it indicates dark, else
"light"); in particular with no persisted value and a dark signal the
applied and persisted values both become "dark", and with a light signal
both become "light". -/
theorem init_theme_resolution (pd : Bool) (s : ThemeState) :
    initTheme (some "light") pd s = setTheme "light" s ∧
    initTheme (some "dark") pd s = setTheme "dark" s ∧
    initTheme none pd s = setTheme (if pd then "dark" else "light") s ∧
    ((initTheme none true s).dataThemeAttr = some "dark" ∧
      (initTheme none true s).storedTheme = some "dark") ∧
    ((initTheme none false s).dataThemeAttr = some "light" ∧
      (initTheme none false s).storedTheme = some "light") := by
  refine ⟨?_, ?_, rfl, ?_, ?_⟩
  · simp [initTheme]
  · simp [initTheme]
  · simp [initTheme, setTheme]
  · simp [initTheme, setTheme]

/-- C9: `setTheme` is total and normalizing: any argument other than the
exact string "dark" applies and persists "light", so the persisted value
after any call is always "light" or "dark". -/
theorem setTheme_normalizes (t : String) (s : ThemeState) :
    (setTheme t s).dataThemeAttr
      = some (if t = "dark" then "dark" else "light") ∧
    (setTheme t s).storedTheme
      = some (if t = "dark" then "dark" else "light") ∧
    ((setTheme t s).storedTheme = some "light" ∨
      (setTheme t s).storedTheme = some "dark") := by
  by_cases h : t = "dark" <;> simp [setTheme, h]

/-- C10: every fetch attempt that ends in an error (transport failure,
non-2xx status, or decode failure) leaves the projects container empty:
the loading paragraph replaced any prior cards at the start of the attempt,
and the error path removes it without restoring the prior content. -/
theorem error_path_drops_cards (sortBy : String) (s0 : PageState)
    (msg : String) (status : Nat) (body : Except String (List Project)) :
    (fetchProjects sortBy (.network msg) s0).state.projectsContainer
      = ContainerContent.empty ∧
    (respOk status = false →
      (fetchProjects sortBy (.response status body) s0).state.projectsContainer
        = ContainerContent.empty) ∧
    (respOk status = true →
      (fetchProjects sortBy
        (.response status (.error msg)) s0).state.projectsContainer
        = ContainerContent.empty) := by
  refine ⟨?_, ?_, ?_⟩
  · simp [fetchProjects, showLoadingTrue, showLoadingFalse]
  · intro h; simp [fetchProjects, h, showLoadingTrue, showLoadingFalse]
  · intro h; simp [fetchProjects, h, showLoadingTrue, showLoadingFalse]

/-- Witness for C10: a failed re-sort (status 500) run from a page state
that previously displayed one card leaves the container empty. -/
theorem error_path_drops_cards_witness :
    (fetchProjects "updated" (.response 500 (.ok []))
        ⟨ContainerContent.cards
          [renderCard ⟨"repo1", none, none, "https://x/repo1", 0, 0⟩],
          none⟩).state.projectsContainer = ContainerContent.empty :=
  (error_path_drops_cards "updated"
      ⟨ContainerContent.cards
        [renderCard ⟨"repo1", none, none, "https://x/repo1", 0, 0⟩], none⟩
      "boom" 500 (.ok [])).2.1 (by decide)

end Portfolio
